import Mathlib

/-!
Shallow embedding of the notification-routing core of discord2pushover
(rule-condition evaluation, first-match rule processing, Pushover dispatch
with priority-based suppression, emergency acknowledgement tracking and
polling), together with theorems checking the natural-language
specification against this embedding.

Sources embedded: `rules.go` (`ProcessRules`, `checkRuleConditions`),
`pushover.go` (`SendPushoverNotification`), `main.go`
(`PollEmergencyAcknowledgements`, `TrackedEmergencyMessage`), `config.go`
(data model).  Network calls (Pushover send, receipt query) and the
Discord reaction call are modelled as explicit oracle inputs; wall-clock
time is an explicit integer parameter (seconds).
-/

namespace Discord2Pushover

/-- One reaction entry on a Discord message (`discordgo.MessageReactions`):
the emoji name and whether the bot itself is among the reactors (`Me`). -/
structure Reaction where
  name : String
  me : Bool
deriving Repr, DecidableEq

/-- The message snapshot consumed by `checkRuleConditions` / `ProcessRules`:
id, channel, guild, content, user mentions (ids), role mentions (ids),
and current reactions. -/
structure Message where
  id : String
  channelID : String
  guildID : String
  content : String
  mentions : List String
  mentionRoles : List String
  reactions : List Reaction
deriving Repr, DecidableEq

/-- `RuleConditions` from `config.go`. -/
structure RuleConditions where
  channelID : String
  messageHasEmoji : List String
  reactToAtMention : Bool
  specificMentions : List String
  contentIncludes : List String
deriving Repr, DecidableEq

/-- `EmergencyParams` from `config.go`. -/
structure EmergencyParams where
  ackEmoji : String
  expire : Int
  retry : Int
deriving Repr, DecidableEq

/-- `RuleActions` from `config.go`.  `emergency = none` models the nil
pointer. -/
structure RuleActions where
  pushoverDestination : String
  priority : Int
  reactionEmoji : String
  emergency : Option EmergencyParams
deriving Repr, DecidableEq

/-- `Rule` from `config.go`. -/
structure Rule where
  name : String
  conditions : RuleConditions
  actions : RuleActions
deriving Repr, DecidableEq

/-- The parts of `Config` the rule engine reads. -/
structure Config where
  pushoverAppKey : String
  rules : List Rule
deriving Repr, DecidableEq

/-- Go's `math.MaxInt32`, used by `ProcessRules` as the
"no previously notified priority" sentinel. -/
def maxInt32 : Int := 2147483647

/-- Character-list version of `strings.HasPrefix`. -/
def charsStartWith : List Char → List Char → Bool
  | _, [] => true
  | [], _ :: _ => false
  | c :: cs, p :: ps => c == p && charsStartWith cs ps

/-- Character-list version of `strings.Contains` (substring search). -/
def charsContain (pat : List Char) : List Char → Bool
  | [] => pat.isEmpty
  | c :: cs => charsStartWith (c :: cs) pat || charsContain pat cs

/-- `strings.Contains s pat`. -/
def strContains (s pat : String) : Bool :=
  charsContain pat.data s.data

/-- Bot identity as visible through `session.State()`: `none` models a nil
state or nil state user, `some id` the bot's user id. -/
abbrev BotIdentity := Option String

/-- The bot-mention scan of `checkRuleConditions` (rules.go lines 185-200):
false whenever the session state or its user is nil, otherwise true iff the
bot id occurs in the message's mention list. -/
def botMentioned (msg : Message) (botId : BotIdentity) : Bool :=
  match botId with
  | none => false
  | some id => msg.mentions.contains id

/-- Inner loop of the `MessageHasEmoji` check in rules.go (lines 131-145):
a single required emoji name is found iff some reaction carries that name
and is not excluded by the `ReactToAtMention && reaction.Me` rule. -/
def singleRequiredEmojiFound (c : RuleConditions) (reactions : List Reaction)
    (req : String) : Bool :=
  reactions.any fun r => r.name == req && !(c.reactToAtMention && r.me)

/-- Outer loop of the `MessageHasEmoji` check in rules.go (lines 129-151):
every required emoji must be found (ALL-of). -/
def allRequiredEmojisFound (c : RuleConditions) (reactions : List Reaction) : Bool :=
  c.messageHasEmoji.all (singleRequiredEmojiFound c reactions)

/-- `ContentIncludes` loop of rules.go (lines 165-179): every keyword is a
case-insensitive substring of the message content. -/
def allKeywordsFound (c : RuleConditions) (content : String) : Bool :=
  c.contentIncludes.all fun kw => strContains content.toLower kw.toLower

/-- `SpecificMentions` loop of rules.go (lines 214-239): some listed id is
among the user mentions or the role mentions. -/
def specificMentionFound (c : RuleConditions) (msg : Message) : Bool :=
  c.specificMentions.any fun m =>
    msg.mentions.contains m || msg.mentionRoles.contains m

/-- `checkRuleConditions` from `rules.go` (lines 116-250), the version in
the repository's `rules.go`: AND of the active conditions, with early
return on the first failing one.  The `MessageHasEmoji` condition demands
ALL listed emojis (lines 129-162). -/
def checkRuleConditions (msg : Message) (c : RuleConditions)
    (botId : BotIdentity) : Bool :=
  if c.channelID != "" && msg.channelID != c.channelID then false
  else if c.messageHasEmoji.length > 0 && !allRequiredEmojisFound c msg.reactions then false
  else if c.contentIncludes.length > 0 && !allKeywordsFound c msg.content then false
  else if c.reactToAtMention && !botMentioned msg botId then false
  else if c.specificMentions.length > 0 && !specificMentionFound c msg then false
  else true

/-- `MessageHasEmoji` check of the other `checkRuleConditions` revision in
the repository (the "ANY OF LOGIC" goto loop): some reaction on the
message matches some listed emoji name, with the same
`ReactToAtMention && reaction.Me` exclusion. -/
def anyEmojiFound (c : RuleConditions) (reactions : List Reaction) : Bool :=
  reactions.any fun r =>
    c.messageHasEmoji.any fun req => r.name == req && !(c.reactToAtMention && r.me)

/-- `checkRuleConditions` as in the repository's alternate revision with
ANY-of `MessageHasEmoji` semantics (the revision matching the README's
documentation and the repository's emoji-logic tests); all other
conditions are identical to `checkRuleConditions`. -/
def checkRuleConditionsAnyOf (msg : Message) (c : RuleConditions)
    (botId : BotIdentity) : Bool :=
  if c.channelID != "" && msg.channelID != c.channelID then false
  else if c.messageHasEmoji.length > 0 && !anyEmojiFound c msg.reactions then false
  else if c.contentIncludes.length > 0 && !allKeywordsFound c msg.content then false
  else if c.reactToAtMention && !botMentioned msg botId then false
  else if c.specificMentions.length > 0 && !specificMentionFound c msg then false
  else true

/-- Network outcome of `app.SendMessage` in `SendPushoverNotification`:
either a transport error, or a Pushover API response carrying a status
code and a receipt string. -/
inductive PushoverSendResult
  | sendErr
  | resp (status : Int) (receipt : String)
deriving Repr, DecidableEq

/-- The `message.Priority` computed by the `switch ruleAction.Priority`
in `SendPushoverNotification` (pushover.go): the Pushover library
constants are Lowest = -2, Low = -1, Normal = 0, High = 1, Emergency = 2.
Priority 2 without emergency parameters falls back to High (1); unknown
priorities fall back to Normal (0). -/
def messagePriority (a : RuleActions) : Int :=
  if a.priority = -2 then -2
  else if a.priority = -1 then -1
  else if a.priority = 0 then 0
  else if a.priority = 1 then 1
  else if a.priority = 2 then
    match a.emergency with
    | some _ => 2
    | none => 1
  else 0

/-- `SendPushoverNotification` from `pushover.go`, with the network send
given as an oracle input.  Returns `.error ()` on any of the failure
paths (missing app key, missing destination, transport error, non-1 API
status) and otherwise `.ok receipt` where the receipt is the response's
receipt string when the message went out at Emergency priority and `""`
otherwise. -/
def sendPushoverNotification (appKey : String) (a : RuleActions)
    (net : PushoverSendResult) : Except Unit String :=
  if appKey = "" then .error ()
  else if a.pushoverDestination = "" then .error ()
  else
    match net with
    | .sendErr => .error ()
    | .resp status receipt =>
      if status ≠ 1 then .error ()
      else if messagePriority a = 2 then .ok receipt
      else .ok ""

/-- `TrackedEmergencyMessage` from `main.go`; `expiryTime` is an absolute
timestamp in seconds. -/
structure TrackedEmergencyMessage where
  discordMessageID : String
  discordChannelID : String
  pushoverReceiptID : String
  ackEmoji : String
  expiryTime : Int
deriving Repr, DecidableEq

/-- Observable outcome of the action phase of `ProcessRules` for a matched
rule (rules.go lines 40-103): the suppression decision, whether a Pushover
send was attempted and whether it succeeded, the receipt obtained, the
reaction-add request issued (if any) and whether that request failed, and
the emergency-tracking entry stored (if any). -/
structure DispatchOutcome where
  suppressed : Bool
  sendAttempted : Bool
  sendSucceeded : Bool
  receiptID : String
  reactionRequested : Option String
  reactionError : Bool
  tracked : Option TrackedEmergencyMessage
deriving Repr, DecidableEq

/-- Expiry duration (seconds) used for emergency tracking in rules.go
lines 84-88: the configured `expire`, or 3600 (one hour) when that value
is non-positive. -/
def trackingExpirySeconds (em : EmergencyParams) : Int :=
  if em.expire ≤ 0 then 3600 else em.expire

/-- Action phase of `ProcessRules` for a rule whose conditions matched
(rules.go lines 24-106).  `previouslyNotifiedRulePriority` is the baseline
priority argument; `net` is the Pushover network oracle, `reactFails`
tells whether the Discord reaction-add collaborator call errors, `now`
is the current time in seconds. -/
def dispatchMatchedRule (appKey : String) (msg : Message) (rule : Rule)
    (previouslyNotifiedRulePriority : Int) (net : PushoverSendResult)
    (reactFails : Bool) (now : Int) : DispatchOutcome :=
  let suppressed : Bool :=
    if rule.actions.pushoverDestination = "" then false
    else if previouslyNotifiedRulePriority ≠ maxInt32 ∧
        rule.actions.priority ≥ previouslyNotifiedRulePriority then true
    else false
  let sendNotification : Bool :=
    if rule.actions.pushoverDestination = "" then false
    else if previouslyNotifiedRulePriority ≠ maxInt32 ∧
        rule.actions.priority ≥ previouslyNotifiedRulePriority then false
    else true
  let sendResult : Option (Except Unit String) :=
    if sendNotification then some (sendPushoverNotification appKey rule.actions net)
    else none
  let receiptID : String :=
    match sendResult with
    | some (.ok r) => r
    | _ => ""
  let errPushoverIsNil : Bool :=
    match sendResult with
    | some (.error _) => false
    | _ => true
  let reactionRequested : Option String :=
    if rule.actions.reactionEmoji ≠ "" then some rule.actions.reactionEmoji
    else none
  let reactionError : Bool := reactFails && rule.actions.reactionEmoji ≠ ""
  let tracked : Option TrackedEmergencyMessage :=
    if sendNotification && errPushoverIsNil && receiptID ≠ "" then
      match rule.actions.emergency with
      | some em =>
        if receiptID ≠ "" ∧ rule.actions.priority = 2 then
          some { discordMessageID := msg.id
                 discordChannelID := msg.channelID
                 pushoverReceiptID := receiptID
                 ackEmoji := em.ackEmoji
                 expiryTime := now + trackingExpirySeconds em }
        else none
      | none => none
    else none
  { suppressed := suppressed
    sendAttempted := sendNotification
    sendSucceeded := sendNotification && errPushoverIsNil
    receiptID := receiptID
    reactionRequested := reactionRequested
    reactionError := reactionError
    tracked := tracked }

/-- First-match rule scan of `ProcessRules` (rules.go lines 16-24, 104-110):
index and rule of the first rule whose conditions are met, or `none`. -/
def selectRule (msg : Message) (botId : BotIdentity) :
    List Rule → Option (Nat × Rule)
  | [] => none
  | r :: rs =>
    if checkRuleConditions msg r.conditions botId then some (0, r)
    else
      match selectRule msg botId rs with
      | some (i, r) => some (i + 1, r)
      | none => none

/-- Number of rules whose conditions `ProcessRules` evaluates: the scan
stops right after the first match (the function returns inside the loop),
otherwise every rule is evaluated. -/
def evaluatedCount (msg : Message) (botId : BotIdentity) : List Rule → Nat
  | [] => 0
  | r :: rs =>
    if checkRuleConditions msg r.conditions botId then 1
    else 1 + evaluatedCount msg botId rs

/-- `ProcessRules` from `rules.go`: scan for the first matching rule and
run the action phase on it; no rule matching means no action at all. -/
def processRules (cfg : Config) (msg : Message) (botId : BotIdentity)
    (previouslyNotifiedRulePriority : Int) (net : PushoverSendResult)
    (reactFails : Bool) (now : Int) : Option DispatchOutcome :=
  match selectRule msg botId cfg.rules with
  | some (_, r) =>
    some (dispatchMatchedRule cfg.pushoverAppKey msg r
      previouslyNotifiedRulePriority net reactFails now)
  | none => none

/-- Outcome of `pushover.GetReceiptDetails` for one receipt, as an oracle:
a query error, or receipt details carrying the API status and the
acknowledged flag. -/
inductive ReceiptQuery
  | queryErr
  | receiptDetails (status : Int) (acknowledged : Bool)
deriving Repr, DecidableEq

/-- Observable outcome of one `PollEmergencyAcknowledgements` iteration
for one tracked entry: whether the entry was deleted from the registry,
whether the Pushover receipt query was invoked for it, and the
acknowledgement reactions requested on Discord
(channelID, messageID, emoji). -/
structure PollEntryOutcome where
  removed : Bool
  queried : Bool
  ackReactions : List (String × String × String)
deriving Repr, DecidableEq

/-- Body of the `trackedMessages.Range` callback in
`PollEmergencyAcknowledgements` (main.go lines 241-288) for one entry:
an entry strictly past its expiry (`time.Now().After(ExpiryTime)`) is
deleted without querying Pushover; otherwise the receipt is queried and
the entry is deleted on non-1 status, deleted with an acknowledgement
reaction (when `ackEmoji` is non-empty) on acknowledgement, and kept
untouched on query error or when still unacknowledged. -/
def pollEntryStep (now : Int) (q : ReceiptQuery)
    (e : TrackedEmergencyMessage) : PollEntryOutcome :=
  if now > e.expiryTime then
    { removed := true, queried := false, ackReactions := [] }
  else
    match q with
    | .queryErr => { removed := false, queried := true, ackReactions := [] }
    | .receiptDetails status acked =>
      if status ≠ 1 then { removed := true, queried := true, ackReactions := [] }
      else if acked then
        { removed := true, queried := true,
          ackReactions :=
            if e.ackEmoji ≠ "" then
              [(e.discordChannelID, e.discordMessageID, e.ackEmoji)]
            else [] }
      else { removed := false, queried := true, ackReactions := [] }

/-- One full poll tick over the registry: the entries kept for the next
tick (entries are never mutated, only kept or deleted) and the
acknowledgement reactions requested during the tick.  `query` is the
receipt-status oracle, keyed by receipt id. -/
def pollTick (now : Int) (query : String → ReceiptQuery)
    (reg : List TrackedEmergencyMessage) :
    List TrackedEmergencyMessage × List (String × String × String) :=
  (reg.filter fun e => !(pollEntryStep now (query e.pushoverReceiptID) e).removed,
   reg.flatMap fun e => (pollEntryStep now (query e.pushoverReceiptID) e).ackReactions)

/-! Concrete instances used by counterexamples and witnesses. -/

/-- A message carrying a single user reaction named "a". -/
def msgReactA : Message :=
  { id := "m1", channelID := "c1", guildID := "", content := "hello",
    mentions := ["bot1"], mentionRoles := [],
    reactions := [{ name := "a", me := false }] }

/-- Conditions asking for emoji "a" or "b" (per the spec, ANY-of), with
every other condition inactive. -/
def condEmojiAB : RuleConditions :=
  { channelID := "", messageHasEmoji := ["a", "b"],
    reactToAtMention := false, specificMentions := [], contentIncludes := [] }

/-- Conditions with only `reactToAtMention` active. -/
def condMention : RuleConditions :=
  { channelID := "", messageHasEmoji := [],
    reactToAtMention := true, specificMentions := [], contentIncludes := [] }

/-- Conditions with no active field (always satisfied). -/
def condEmpty : RuleConditions :=
  { channelID := "", messageHasEmoji := [],
    reactToAtMention := false, specificMentions := [], contentIncludes := [] }

/-- Conditions restricted to a channel no sample message lives in. -/
def condOtherChannel : RuleConditions :=
  { channelID := "zzz", messageHasEmoji := [],
    reactToAtMention := false, specificMentions := [], contentIncludes := [] }

/-- Emergency parameters with a positive expire value. -/
def emSample : EmergencyParams := { ackEmoji := "ok", expire := 120, retry := 30 }

/-- An always-matching emergency rule with destination, reaction emoji and
emergency parameters. -/
def ruleW : Rule :=
  { name := "w", conditions := condEmpty,
    actions := { pushoverDestination := "dest", priority := 2,
                 reactionEmoji := "bell", emergency := some emSample } }

/-- An always-matching rule of priority -1 with a destination. -/
def ruleHigh : Rule :=
  { name := "high", conditions := condEmpty,
    actions := { pushoverDestination := "dest", priority := -1,
                 reactionEmoji := "", emergency := none } }

/-- A rule that never matches the sample messages (wrong channel). -/
def ruleOther : Rule :=
  { name := "other", conditions := condOtherChannel,
    actions := { pushoverDestination := "dest", priority := 0,
                 reactionEmoji := "", emergency := none } }

/-- A tracked emergency entry expiring at time 100. -/
def entryW : TrackedEmergencyMessage :=
  { discordMessageID := "m", discordChannelID := "c",
    pushoverReceiptID := "r", ackEmoji := "ok", expiryTime := 100 }

/-! Theorems settling the claims. -/

/-- C1: the claim states ANY-of semantics for `messageHasEmoji` (true iff
at least one reaction emoji name on the message intersects the list), as
the repository's README and its emoji-logic tests also do; but
`checkRuleConditions` in `rules.go` requires ALL listed emojis.  On a
message reacted only with "a" against the list ["a", "b"] (all other
conditions inactive), `rules.go` returns false where the claim — and the
repository's alternate ANY-of revision of the same function — give
true. -/
theorem C1_allOf_vs_anyOf_divergence :
    checkRuleConditions msgReactA condEmojiAB (some "bot1") = false ∧
    checkRuleConditionsAnyOf msgReactA condEmojiAB (some "bot1") = true := by
  decide

/-- C2: for a matched rule with a non-empty Pushover destination, the send
is skipped iff the baseline is not the `math.MaxInt32` sentinel and the
rule's priority is numerically ≥ the baseline; a priority numerically
strictly below the baseline is never suppressed. -/
theorem C2_suppression_policy (appKey : String) (msg : Message) (rule : Rule)
    (baseline : Int) (net : PushoverSendResult) (reactFails : Bool) (now : Int)
    (hdest : rule.actions.pushoverDestination ≠ "") :
    ((dispatchMatchedRule appKey msg rule baseline net reactFails now).sendAttempted = false
      ↔ baseline ≠ maxInt32 ∧ rule.actions.priority ≥ baseline) ∧
    (rule.actions.priority < baseline →
      (dispatchMatchedRule appKey msg rule baseline net reactFails now).sendAttempted = true) := by
  constructor
  · simp only [dispatchMatchedRule, if_neg hdest]
    split
    · simp_all
    · simp_all
  · intro hlt
    simp only [dispatchMatchedRule, if_neg hdest]
    split
    · rename_i hcond
      exact absurd hcond.2 (not_le.mpr hlt)
    · rfl

/-- C2 witness: a rule of priority -1 against baseline 0 is sent. -/
theorem C2_suppression_policy_witness :
    (dispatchMatchedRule "k" msgReactA ruleHigh 0 (.resp 1 "") false 5).sendAttempted
      = true :=
  (C2_suppression_policy "k" msgReactA ruleHigh 0 (.resp 1 "") false 5
    (by decide)).2 (by decide)

/-- C4: whenever the matched rule specifies a non-empty `reactionEmoji`,
the reaction-add request is issued with that emoji, whatever the
suppression decision, the network outcome, the destination and the
clock; and the send decision, send success, receipt and tracking entry
are all independent of whether the reaction-add call fails. -/
theorem C4_reaction_regardless_of_send (appKey : String) (msg : Message)
    (rule : Rule) (baseline : Int) (net : PushoverSendResult) (now : Int)
    (hemoji : rule.actions.reactionEmoji ≠ "") :
    ∀ reactFails : Bool,
      (dispatchMatchedRule appKey msg rule baseline net reactFails now).reactionRequested
        = some rule.actions.reactionEmoji ∧
      (dispatchMatchedRule appKey msg rule baseline net reactFails now).sendAttempted
        = (dispatchMatchedRule appKey msg rule baseline net false now).sendAttempted ∧
      (dispatchMatchedRule appKey msg rule baseline net reactFails now).sendSucceeded
        = (dispatchMatchedRule appKey msg rule baseline net false now).sendSucceeded ∧
      (dispatchMatchedRule appKey msg rule baseline net reactFails now).receiptID
        = (dispatchMatchedRule appKey msg rule baseline net false now).receiptID ∧
      (dispatchMatchedRule appKey msg rule baseline net reactFails now).tracked
        = (dispatchMatchedRule appKey msg rule baseline net false now).tracked := by
  intro reactFails
  refine ⟨?_, rfl, rfl, rfl, rfl⟩
  simp [dispatchMatchedRule, hemoji]

/-- C4 witness: with the send suppressed (baseline 0, priority 2) and the
reaction collaborator failing, the reaction is still requested. -/
theorem C4_reaction_regardless_of_send_witness :
    (dispatchMatchedRule "k" msgReactA ruleW 0 (.resp 1 "rcpt") true 5).reactionRequested
      = some ruleW.actions.reactionEmoji :=
  (C4_reaction_regardless_of_send "k" msgReactA ruleW 0 (.resp 1 "rcpt") 5
    (by decide) true).1

/-- C5 counterexample: the claim asserts that an entry with
`now >= expiryTimestamp` is removed on the tick without the receipt query
being invoked; but at `now` exactly equal to the expiry timestamp
(100 ≥ 100) the code's strict `time.Now().After(ExpiryTime)` test does
not fire: the entry is queried, is not removed on query error, and an
acknowledged query result even triggers the acknowledgement reaction. -/
theorem C5_equal_expiry_counterexample :
    (100 : Int) ≥ entryW.expiryTime ∧
    (pollEntryStep 100 .queryErr entryW).queried = true ∧
    (pollEntryStep 100 .queryErr entryW).removed = false ∧
    (pollEntryStep 100 (.receiptDetails 1 true) entryW).ackReactions
      = [("c", "m", "ok")] := by
  decide

/-- C5 (amended to the code's strict comparison): on a poll tick, every
tracked entry with `now` strictly after its expiry timestamp is removed
from the registry on that tick, the receipt-status query is never invoked
for it, and no reaction is applied for it. -/
theorem C5_expired_removed_without_query (now : Int) (q : ReceiptQuery)
    (e : TrackedEmergencyMessage) (query : String → ReceiptQuery)
    (reg : List TrackedEmergencyMessage)
    (h : now > e.expiryTime) :
    pollEntryStep now q e = { removed := true, queried := false, ackReactions := [] } ∧
    e ∉ (pollTick now query reg).1 := by
  constructor
  · simp [pollEntryStep, h]
  · intro hmem
    rw [pollTick, List.mem_filter] at hmem
    simp [pollEntryStep, h] at hmem

/-- C5 witness: one second past expiry, the entry is dropped unqueried and
is absent from the post-tick registry. -/
theorem C5_expired_removed_without_query_witness :
    pollEntryStep 101 .queryErr entryW
      = { removed := true, queried := false, ackReactions := [] } ∧
    entryW ∉ (pollTick 101 (fun _ => .queryErr) [entryW]).1 :=
  C5_expired_removed_without_query 101 .queryErr entryW (fun _ => .queryErr)
    [entryW] (by decide)

/-- C9: with `reactToAtMention` set on a rule, `checkRuleConditions` can
only succeed when the bot's resolved user id occurs in the message's
mention list; with an unresolvable identity (nil session state or nil
state user, modelled as `none`) it always fails. -/
theorem C9_mention_fails_closed (msg : Message) (c : RuleConditions)
    (h : c.reactToAtMention = true) :
    checkRuleConditions msg c none = false ∧
    ∀ botId : BotIdentity, checkRuleConditions msg c botId = true →
      ∃ id, botId = some id ∧ msg.mentions.contains id = true := by
  constructor
  · simp [checkRuleConditions, h, botMentioned]
  · intro botId htrue
    by_cases hb : botMentioned msg botId = true
    · match botId, hb with
      | some id, hb => exact ⟨id, rfl, by simpa [botMentioned] using hb⟩
    · rw [checkRuleConditions] at htrue
      simp [h, hb] at htrue

/-- C9 witness: a mention-conditioned rule fails on an unresolved bot
identity, and succeeds with a resolved identity only because that id is
mentioned. -/
theorem C9_mention_fails_closed_witness :
    checkRuleConditions msgReactA condMention none = false ∧
    ∃ id, (some "bot1" : BotIdentity) = some id ∧
      msgReactA.mentions.contains id = true :=
  ⟨(C9_mention_fails_closed msgReactA condMention rfl).1,
   (C9_mention_fails_closed msgReactA condMention rfl).2 (some "bot1") (by decide)⟩

/-- C10: a rule action of priority 2 without emergency parameters is sent
at High priority (1), a successful send returns an empty receipt, and the
dispatcher never creates an acknowledgement-tracking entry for it. -/
theorem C10_emergency_fallback_high (appKey : String) (msg : Message)
    (rule : Rule) (baseline : Int) (net : PushoverSendResult)
    (reactFails : Bool) (now : Int)
    (hprio : rule.actions.priority = 2) (hem : rule.actions.emergency = none) :
    messagePriority rule.actions = 1 ∧
    (∀ s, sendPushoverNotification appKey rule.actions net = .ok s → s = "") ∧
    (dispatchMatchedRule appKey msg rule baseline net reactFails now).tracked
      = none := by
  have hmp : messagePriority rule.actions = 1 := by
    simp [messagePriority, hprio, hem]
  refine ⟨hmp, ?_, ?_⟩
  · intro s hs
    by_cases hk : appKey = ""
    · simp [sendPushoverNotification, hk] at hs
    · by_cases hd : rule.actions.pushoverDestination = ""
      · simp [sendPushoverNotification, hk, hd] at hs
      · cases net with
        | sendErr => simp [sendPushoverNotification, hk, hd] at hs
        | resp status receipt =>
          by_cases hst : status = 1
          · have hne : ¬messagePriority rule.actions = 2 := by rw [hmp]; omega
            simp [sendPushoverNotification, hk, hd, hst, hne] at hs
            exact hs.symm
          · simp [sendPushoverNotification, hk, hd, hst] at hs
  · simp [dispatchMatchedRule, hem]

/-- C10 witness: concrete priority-2 action without emergency block. -/
theorem C10_emergency_fallback_high_witness :
    messagePriority
      { pushoverDestination := "dest", priority := 2,
        reactionEmoji := "", emergency := none } = 1 :=
  (C10_emergency_fallback_high "k" msgReactA
    { name := "n", conditions := condEmpty,
      actions := { pushoverDestination := "dest", priority := 2,
                   reactionEmoji := "", emergency := none } }
    maxInt32 (.resp 1 "rcpt") false 5 rfl rfl).1

/-- C6: an entry that is not past expiry and whose receipt query reports
status 1 and acknowledged is removed from the registry on that tick (so it
is never processed again), with exactly one acknowledgement reaction using
its `ackEmoji` when that emoji is non-empty and none otherwise. -/
theorem C6_acknowledged_reaction_once (now : Int)
    (e : TrackedEmergencyMessage) (query : String → ReceiptQuery)
    (reg : List TrackedEmergencyMessage)
    (hnow : now ≤ e.expiryTime)
    (hq : query e.pushoverReceiptID = .receiptDetails 1 true) :
    (pollEntryStep now (query e.pushoverReceiptID) e).removed = true ∧
    (e.ackEmoji ≠ "" →
      (pollEntryStep now (query e.pushoverReceiptID) e).ackReactions
        = [(e.discordChannelID, e.discordMessageID, e.ackEmoji)]) ∧
    (e.ackEmoji = "" →
      (pollEntryStep now (query e.pushoverReceiptID) e).ackReactions = []) ∧
    e ∉ (pollTick now query reg).1 := by
  have hlt : ¬now > e.expiryTime := not_lt.mpr hnow
  have hstep : pollEntryStep now (query e.pushoverReceiptID) e
      = { removed := true, queried := true,
          ackReactions :=
            if e.ackEmoji ≠ "" then
              [(e.discordChannelID, e.discordMessageID, e.ackEmoji)]
            else [] } := by
    rw [pollEntryStep.eq_def, if_neg hlt, hq]
    simp
  refine ⟨by rw [hstep], ?_, ?_, ?_⟩
  · intro hne
    rw [hstep]
    simp [hne]
  · intro heq
    rw [hstep]
    simp [heq]
  · intro hmem
    rw [pollTick, List.mem_filter] at hmem
    rw [hstep] at hmem
    simp at hmem

/-- C6 witness: a pending entry acknowledged at time 50 yields exactly one
reaction with its ack emoji and leaves the registry. -/
theorem C6_acknowledged_reaction_once_witness :
    (pollEntryStep 50 ((fun _ => .receiptDetails 1 true : String → ReceiptQuery)
        entryW.pushoverReceiptID) entryW).ackReactions
      = [(entryW.discordChannelID, entryW.discordMessageID, entryW.ackEmoji)] ∧
    entryW ∉ (pollTick 50 (fun _ => .receiptDetails 1 true) [entryW]).1 :=
  ⟨(C6_acknowledged_reaction_once 50 entryW (fun _ => .receiptDetails 1 true)
      [entryW] (by decide) rfl).2.1 (by decide),
   (C6_acknowledged_reaction_once 50 entryW (fun _ => .receiptDetails 1 true)
      [entryW] (by decide) rfl).2.2.2⟩

/-- C7: an entry that is not past expiry and whose receipt query errors is
left in the registry completely unchanged (the registry only ever keeps or
deletes entry values, never mutates them) and triggers no reaction, so it
is retried on the next tick. -/
theorem C7_query_error_keeps_entry (now : Int)
    (e : TrackedEmergencyMessage) (query : String → ReceiptQuery)
    (reg : List TrackedEmergencyMessage)
    (hnow : now ≤ e.expiryTime)
    (hq : query e.pushoverReceiptID = .queryErr) :
    pollEntryStep now (query e.pushoverReceiptID) e
      = { removed := false, queried := true, ackReactions := [] } ∧
    (e ∈ reg → e ∈ (pollTick now query reg).1) := by
  have hlt : ¬now > e.expiryTime := not_lt.mpr hnow
  have hstep : pollEntryStep now (query e.pushoverReceiptID) e
      = { removed := false, queried := true, ackReactions := [] } := by
    rw [pollEntryStep.eq_def, if_neg hlt, hq]
  refine ⟨hstep, fun hmem => ?_⟩
  rw [pollTick, List.mem_filter]
  exact ⟨hmem, by rw [hstep]; rfl⟩

/-- C7 witness: a query error at time 50 keeps the entry for the next
tick. -/
theorem C7_query_error_keeps_entry_witness :
    entryW ∈ (pollTick 50 (fun _ => .queryErr) [entryW]).1 :=
  (C7_query_error_keeps_entry 50 entryW (fun _ => .queryErr) [entryW]
    (by decide) rfl).2 (by decide)

/-- C3: rule processing scans the ordered rule list, selecting the first
rule whose conditions are met: a selected rule at index `i` satisfies its
conditions, every earlier rule fails its conditions, and exactly `i + 1`
rules are evaluated (no rule after the match is evaluated); the action
phase runs on exactly that rule; when no rule matches, every rule is
evaluated and no action is taken.  Determinism over identical inputs is
inherent: the embedding is a pure function of its inputs. -/
theorem C3_first_match_processing (msg : Message) (botId : BotIdentity)
    (rules : List Rule) :
    (∀ i r, selectRule msg botId rules = some (i, r) →
      rules[i]? = some r ∧
      checkRuleConditions msg r.conditions botId = true ∧
      (∀ j, j < i → ∀ rj, rules[j]? = some rj →
        checkRuleConditions msg rj.conditions botId = false) ∧
      evaluatedCount msg botId rules = i + 1 ∧
      (∀ appKey baseline net reactFails now,
        processRules ⟨appKey, rules⟩ msg botId baseline net reactFails now
          = some (dispatchMatchedRule appKey msg r baseline net reactFails now))) ∧
    (selectRule msg botId rules = none →
      evaluatedCount msg botId rules = rules.length ∧
      ∀ appKey baseline net reactFails now,
        processRules ⟨appKey, rules⟩ msg botId baseline net reactFails now
          = none) := by
  induction rules with
  | nil =>
    refine ⟨?_, ?_⟩
    · intro i r h
      simp [selectRule] at h
    · intro _
      exact ⟨rfl, fun _ _ _ _ _ => rfl⟩
  | cons hd tl ih =>
    by_cases hc : checkRuleConditions msg hd.conditions botId = true
    · refine ⟨?_, ?_⟩
      · intro i r h
        rw [selectRule, if_pos hc] at h
        simp only [Option.some.injEq, Prod.mk.injEq] at h
        obtain ⟨hi, hr⟩ := h
        subst hi
        subst hr
        refine ⟨by simp, hc, ?_, ?_, ?_⟩
        · intro j hj
          exact absurd hj (Nat.not_lt_zero j)
        · simp [evaluatedCount, hc]
        · intro appKey baseline net reactFails now
          have hsel : selectRule msg botId (hd :: tl) = some (0, hd) := by
            rw [selectRule, if_pos hc]
          simp [processRules, hsel]
      · intro h
        rw [selectRule, if_pos hc] at h
        exact absurd h (by simp)
    · cases hsel : selectRule msg botId tl with
      | some p =>
        obtain ⟨i0, r0⟩ := p
        have hprops := ih.1 i0 r0 hsel
        have hsel2 : selectRule msg botId (hd :: tl) = some (i0 + 1, r0) := by
          rw [selectRule, if_neg hc, hsel]
        refine ⟨?_, ?_⟩
        · intro i r h
          rw [hsel2] at h
          simp only [Option.some.injEq, Prod.mk.injEq] at h
          obtain ⟨hi, hr⟩ := h
          subst hi
          subst hr
          refine ⟨by simpa using hprops.1, hprops.2.1, ?_, ?_, ?_⟩
          · intro j hj rj hget
            cases j with
            | zero =>
              simp only [List.getElem?_cons_zero, Option.some.injEq] at hget
              subst hget
              exact eq_false_of_ne_true hc
            | succ k =>
              refine hprops.2.2.1 k (by omega) rj ?_
              simpa using hget
          · have := hprops.2.2.2.1
            simp [evaluatedCount, hc, this]
            omega
          · intro appKey baseline net reactFails now
            simp [processRules, hsel2]
        · intro h
          rw [hsel2] at h
          exact absurd h (by simp)
      | none =>
        have htl := ih.2 hsel
        have hsel2 : selectRule msg botId (hd :: tl) = none := by
          rw [selectRule, if_neg hc, hsel]
        refine ⟨?_, ?_⟩
        · intro i r h
          rw [hsel2] at h
          exact absurd h (by simp)
        · intro _
          refine ⟨by simp [evaluatedCount, hc, htl.1]; try omega, ?_⟩
          intro appKey baseline net reactFails now
          simp [processRules, hsel2]

/-- C3 witness: with a non-matching rule ahead of a matching one, the
second rule is selected and both rules are evaluated. -/
theorem C3_first_match_processing_witness :
    [ruleOther, ruleW][1]? = some ruleW ∧
    evaluatedCount msgReactA (some "bot1") [ruleOther, ruleW] = 2 :=
  ⟨((C3_first_match_processing msgReactA (some "bot1") [ruleOther, ruleW]).1
      1 ruleW (by decide)).1,
   ((C3_first_match_processing msgReactA (some "bot1") [ruleOther, ruleW]).1
      1 ruleW (by decide)).2.2.2.1⟩

/-- C8: a matched, unsuppressed priority-2 rule with emergency parameters
whose Pushover send succeeds (API status 1) with a non-empty receipt makes
the dispatcher store exactly one tracking entry, keyed by that receipt,
whose expiry is `now` plus the configured expire seconds — with 3600 (one
hour) substituted when the configured value is non-positive — and the send
itself is performed, not aborted. -/
theorem C8_tracked_entry_registration (appKey : String) (msg : Message)
    (rule : Rule) (baseline : Int) (receipt : String) (em : EmergencyParams)
    (reactFails : Bool) (now : Int)
    (hkey : appKey ≠ "")
    (hdest : rule.actions.pushoverDestination ≠ "")
    (hbase : baseline = maxInt32 ∨ rule.actions.priority < baseline)
    (hprio : rule.actions.priority = 2)
    (hem : rule.actions.emergency = some em)
    (hrec : receipt ≠ "") :
    (dispatchMatchedRule appKey msg rule baseline (.resp 1 receipt) reactFails now).sendAttempted
      = true ∧
    (dispatchMatchedRule appKey msg rule baseline (.resp 1 receipt) reactFails now).sendSucceeded
      = true ∧
    (dispatchMatchedRule appKey msg rule baseline (.resp 1 receipt) reactFails now).tracked
      = some { discordMessageID := msg.id
               discordChannelID := msg.channelID
               pushoverReceiptID := receipt
               ackEmoji := em.ackEmoji
               expiryTime := now + (if em.expire ≤ 0 then 3600 else em.expire) } := by
  have hnosup : ¬(baseline ≠ maxInt32 ∧ rule.actions.priority ≥ baseline) := by
    rcases hbase with hb | hb
    · exact fun hco => hco.1 hb
    · exact fun hco => absurd hco.2 (not_le.mpr hb)
  have hmp : messagePriority rule.actions = 2 := by
    simp [messagePriority, hprio, hem]
  have hsend : sendPushoverNotification appKey rule.actions (.resp 1 receipt)
      = .ok receipt := by
    simp [sendPushoverNotification, hkey, hdest, hmp]
  refine ⟨?_, ?_, ?_⟩
  · simp [dispatchMatchedRule, hdest, hnosup]
  · simp [dispatchMatchedRule, hdest, hnosup, hsend]
  · rcases hbase with hb | hb
    · subst hb
      simp [dispatchMatchedRule, hdest, hsend, hrec, hem, hprio,
        trackingExpirySeconds]
    · have hb2 : (2 : Int) < baseline := hprio ▸ hb
      have h2 : ¬(2 : Int) ≥ baseline := not_le.mpr hb2
      simp [dispatchMatchedRule, hdest, hsend, hrec, hem, hprio,
        trackingExpirySeconds, h2]

/-- C8 witness: a priority-2 rule with expire 120 sent at time 5 is
tracked under its receipt with expiry 125. -/
theorem C8_tracked_entry_registration_witness :
    (dispatchMatchedRule "k" msgReactA ruleW maxInt32 (.resp 1 "rcpt") false 5).tracked
      = some { discordMessageID := msgReactA.id
               discordChannelID := msgReactA.channelID
               pushoverReceiptID := "rcpt"
               ackEmoji := emSample.ackEmoji
               expiryTime := 5 + (if emSample.expire ≤ 0 then 3600 else emSample.expire) } :=
  (C8_tracked_entry_registration "k" msgReactA ruleW maxInt32 "rcpt" emSample
    false 5 (by decide) (by decide) (Or.inl rfl) rfl rfl (by decide)).2.2

end Discord2Pushover
